import Mathlib

/-!
# Nytro AI Interview Chatbot — verification of the specification

Shallow embedding of the Nytro interview chatbot.  The repository ships the
chat frontend (`static/app.js`) together with configuration documentation
(`README.md`); the interview/evaluation engine itself is described by the
specification.  Frontend functions below are translated directly from
`static/app.js`; the engine definitions are modelled from the specification
and are marked as such in their doc comments.
-/

namespace Nytro

/-! ## Frontend: HTML escaping (`static/app.js`, `escapeHtml` / `formatMessage` /
`addUserMessage` / `addBotMessage`)

`escapeHtml` assigns the text to a DOM text node and reads back `innerHTML`;
the browser serialises a text node by replacing `&` with `&amp;`, `<` with
`&lt;` and `>` with `&gt;`.  `formatMessage` escapes first and then replaces
every newline with a `<br>` tag.  `addUserMessage` puts `escapeHtml(text)`
into the message bubble; `addBotMessage` puts `formatMessage(text)` there. -/

/-- Serialisation of one character of a DOM text node, as `escapeHtml` observes
it through `innerHTML`. -/
def escChar (c : Char) : List Char :=
  if c = '&' then "&amp;".toList
  else if c = '<' then "&lt;".toList
  else if c = '>' then "&gt;".toList
  else [c]

/-- Serialisation of a whole text node. -/
def escList : List Char → List Char
  | [] => []
  | c :: cs => escChar c ++ escList cs

/-- `escapeHtml` from `static/app.js`: text placed in a `div` via `textContent`
and read back via `innerHTML`. -/
def escapeHtml (s : String) : String := ⟨escList s.data⟩

/-- The `<br>` tag inserted by `formatMessage`. -/
def brTag : List Char := "<br>".toList

/-- Replacement of each newline by `<br>`, applied after escaping. -/
def nlToBr : List Char → List Char
  | [] => []
  | c :: cs => (if c = '\n' then brTag else [c]) ++ nlToBr cs

/-- `formatMessage` from `static/app.js`: escape the HTML first, then convert
newlines to `<br>` tags. -/
def formatMessage (s : String) : String := ⟨nlToBr (escapeHtml s).data⟩

/-- Contents of the message bubble produced by `addUserMessage`. -/
def userMessageBubble (text : String) : String := escapeHtml text

/-- Contents of the message bubble produced by `addBotMessage`. -/
def botMessageBubble (text : String) : String := formatMessage text

/-! ## Frontend: progress bar (`static/app.js`, `updateProgress` / `showCompletion`) -/

/-- `maxQuestions` from the frontend state (approximate cap, 12). -/
def maxQuestions : ℕ := 12

/-- `updateProgress` from `static/app.js`: increments `questionCount`, then sets
the bar width to `Math.min((questionCount / maxQuestions) * 100, 95)` percent.
Returns the new count together with the width that was written. -/
def updateProgress (questionCount : ℕ) : ℕ × ℚ :=
  let qc := questionCount + 1
  (qc, min ((qc : ℚ) / (maxQuestions : ℚ) * 100) 95)

/-- `showCompletion` from `static/app.js` sets the bar width to 100 percent. -/
def showCompletionWidth : ℚ := 100

/-- The two places in `static/app.js` that write `progressBar.style.width`:
`updateProgress` during the interview and `showCompletion` at the end. -/
inductive BarUpdate
  | progress (questionCount : ℕ)
  | completion
deriving DecidableEq

/-- The width written by a bar update. -/
def barWidth : BarUpdate → ℚ
  | .progress qc => (updateProgress qc).2
  | .completion => showCompletionWidth

/-! ### Escaping lemmas -/

theorem escChar_no_angle (c : Char) : '<' ∉ escChar c ∧ '>' ∉ escChar c := by
  unfold escChar
  split_ifs with h1 h2 h3
  · subst h1; decide
  · subst h2; decide
  · subst h3; decide
  · refine ⟨fun hm => ?_, fun hm => ?_⟩
    · rw [List.mem_singleton] at hm; exact h2 hm.symm
    · rw [List.mem_singleton] at hm; exact h3 hm.symm

theorem escList_no_angle (l : List Char) : '<' ∉ escList l ∧ '>' ∉ escList l := by
  induction l with
  | nil => simp [escList]
  | cons c cs ih =>
    refine ⟨fun h => ?_, fun h => ?_⟩
    · rcases List.mem_append.mp h with h | h
      · exact (escChar_no_angle c).1 h
      · exact ih.1 h
    · rcases List.mem_append.mp h with h | h
      · exact (escChar_no_angle c).2 h
      · exact ih.2 h

theorem count_nl_escChar (c : Char) :
    (escChar c).count '\n' = List.count '\n' [c] := by
  unfold escChar
  split_ifs with h1 h2 h3
  · subst h1; decide
  · subst h2; decide
  · subst h3; decide
  · rfl

theorem count_nl_escList (l : List Char) :
    (escList l).count '\n' = l.count '\n' := by
  induction l with
  | nil => rfl
  | cons c cs ih =>
    rw [escList, List.count_append, ih, count_nl_escChar c, ← List.count_append,
      List.singleton_append]

theorem count_lt_escList (l : List Char) : (escList l).count '<' = 0 :=
  List.count_eq_zero.mpr (escList_no_angle l).1

theorem count_lt_nlChar (c : Char) :
    List.count '<' (if c = '\n' then brTag else [c]) =
      (if c == '\n' then 1 else 0) + (if c == '<' then 1 else 0) := by
  by_cases h : c = '\n'
  · subst h; decide
  · rw [if_neg h]
    have e1 : (c == '\n') = false := beq_eq_false_iff_ne.mpr h
    rw [e1]
    by_cases h2 : c = '<'
    · subst h2; decide
    · have e2 : (c == '<') = false := beq_eq_false_iff_ne.mpr h2
      rw [e2, List.count_singleton', if_neg h2]
      simp

theorem count_lt_nlToBr (l : List Char) :
    (nlToBr l).count '<' = l.count '\n' + l.count '<' := by
  induction l with
  | nil => rfl
  | cons c cs ih =>
    rw [nlToBr, List.count_append, ih, List.count_cons, List.count_cons,
      count_lt_nlChar]
    omega

/-! ### Claim theorems for the frontend -/

/-- C9: candidate and bot text are inserted into the page only after
`escapeHtml` has converted the HTML-significant characters `&`, `<`, `>` to
entities, so the escaped text contains no angle bracket and can never be
parsed as markup; `formatMessage` replaces each newline with a `<br>` element
after escaping (every `<` in its output stems from an inserted `<br>`), and
`addUserMessage` applies `escapeHtml` directly. -/
theorem c9_escape_before_insert (s : String) :
    ('<' ∉ (escapeHtml s).data ∧ '>' ∉ (escapeHtml s).data) ∧
    userMessageBubble s = escapeHtml s ∧
    botMessageBubble s = formatMessage s ∧
    (formatMessage s).data = nlToBr (escapeHtml s).data ∧
    (formatMessage s).data.count '<' = s.data.count '\n' := by
  refine ⟨escList_no_angle s.data, rfl, rfl, rfl, ?_⟩
  show (nlToBr (escList s.data)).count '<' = s.data.count '\n'
  rw [count_lt_nlToBr, count_nl_escList, count_lt_escList]
  omega

/-- C10: the progress value computed by `updateProgress` equals
`min((questionCount / maxQuestions) * 100, 95)` for the incremented question
count, hence never exceeds 95 percent; the bar width reaches 100 percent only
through `showCompletion`. -/
theorem c10_progress_capped :
    (∀ qc : ℕ,
      (updateProgress qc).2 =
        min ((((updateProgress qc).1 : ℕ) : ℚ) / (maxQuestions : ℚ) * 100) 95 ∧
      (updateProgress qc).2 ≤ 95) ∧
    (∀ u : BarUpdate, barWidth u = 100 ↔ u = BarUpdate.completion) := by
  constructor
  · intro qc
    exact ⟨rfl, min_le_right _ _⟩
  · intro u
    cases u with
    | progress qc =>
      simp only [barWidth]
      constructor
      · intro h
        have hle : (updateProgress qc).2 ≤ 95 := min_le_right _ _
        rw [h] at hle
        norm_num at hle
      · intro h; cases h
    | completion => simp [barWidth, showCompletionWidth]

/-! ## Engine model

The interview/evaluation engine (`app.py`, `ai_interview_engine.py`,
`interview_guidelines.yaml`) is not part of the shipped sources; the
definitions below are modelled from the specification's description of the
Interview State Machine, Evaluation Engine and Follow-up Guide Generator,
with the recommendation thresholds matching the ones documented in
`README.md` (Strong Yes ≥ 4.0, Yes ≥ 3.2, Maybe ≥ 2.5, No < 2.5). -/

/-- Modelled from the spec: the ordered interview phases. -/
inductive Phase
  | introduction
  | collect_info
  | skills_assessment
  | closing
  | complete
deriving DecidableEq

/-- Position of a phase in the forward order
`introduction < collect_info < skills_assessment < closing < complete`. -/
def phaseIdx : Phase → ℕ
  | .introduction => 0
  | .collect_info => 1
  | .skills_assessment => 2
  | .closing => 3
  | .complete => 4

/-- Modelled from the spec: the recommendation tiers. -/
inductive Tier
  | strong_yes
  | yes
  | maybe
  | no
deriving DecidableEq

/-- Modelled from the spec: default recommendation thresholds, listed in
descending threshold order; a composite qualifies for the first (hence
highest) tier whose threshold it meets or exceeds, else falls to `no`. -/
def recommendationTiers : List (Tier × ℚ) :=
  [(Tier.strong_yes, 4), (Tier.yes, 16 / 5), (Tier.maybe, 5 / 2)]

/-- Modelled from the spec: tier resolution — the highest tier whose
`min_weighted_score` is ≤ the composite (thresholds inclusive). -/
def resolveTier (c : ℚ) : Tier :=
  match recommendationTiers.find? (fun p => decide (p.2 ≤ c)) with
  | some p => p.1
  | none => Tier.no

/-- Rounding to one decimal place (half rounds up). -/
def round1 (q : ℚ) : ℚ := ((q * 10 + 1 / 2).floor : ℚ) / 10

/-- Modelled from the spec: a configured skill (the fields the claims need). -/
structure Skill where
  id : String
  weight : ℕ
deriving DecidableEq

/-- Modelled from the spec: one per-skill score produced at evaluation time. -/
structure SkillScore where
  skillId : String
  weight : ℕ
  rating : ℕ
  rationale : String
  lowConfidence : Bool
deriving DecidableEq

/-- Modelled from the spec: the immutable Evaluation Result. -/
structure EvaluationResult where
  scores : List SkillScore
  composite : ℚ
  tier : Tier
deriving DecidableEq

/-- Modelled from the spec: weighted composite score over the scored skills,
`(Σ rating × weight) / (Σ weight)` rounded to one decimal place. -/
def compositeOfScores (scores : List SkillScore) : ℚ :=
  let W : ℕ := (scores.map SkillScore.weight).sum
  if W = 0 then 0
  else round1 (((scores.map fun sc => ((sc.rating : ℚ) * sc.weight)).sum) / (W : ℚ))

/-- Modelled from the spec: clamp a raw model rating into 1–5, flagging
out-of-range values as `low_confidence`. -/
def clampRating (r : ℤ) : ℕ × Bool :=
  if r < 1 then (1, true)
  else if 5 < r then (5, true)
  else (r.toNat, false)

/-- A Language-Model Gateway scoring response: one raw rating and rationale
per reached skill, or `none` when the call fails. The argument is the attempt
number (0 = initial call, 1 = the single retry). -/
def GatewayFn : Type := ℕ → Option (List (ℤ × String))

/-- Modelled from the spec: one retry with backoff on gateway failure. -/
def callWithRetry (gw : GatewayFn) : Option (List (ℤ × String)) :=
  match gw 0 with
  | some raw => some raw
  | none => gw 1

/-- Modelled from the spec: per-session state owned by the Interview State
Machine. -/
structure Session where
  phase : Phase
  profileFilled : ℕ
  skillIdx : ℕ
  probeCount : ℕ
  perSkillQuestions : List ℕ
  closingIdx : ℕ
  transcript : List (Option String × String)
  evaluation : Option EvaluationResult
deriving DecidableEq

/-- Modelled from the spec: required profile fields (name, email, location). -/
def numProfileFields : ℕ := 3

/-- Modelled from the spec: default cap of 2 additional probes per skill. -/
def probeCap : ℕ := 2

/-- Modelled from the spec: fixed closing questions (availability, candidate
questions). -/
def numClosing : ℕ := 2

/-- Modelled from the spec: an answer is rejected when empty or
whitespace-only. -/
def isBlank (s : String) : Bool := s.data.all Char.isWhitespace

/-- Walk the skill list with its index, keeping the skills whose per-skill
question counter is positive. -/
def reachedAux (counters : List ℕ) : List Skill → ℕ → List Skill
  | [], _ => []
  | sk :: rest, i =>
      if 0 < counters.getD i 0 then sk :: reachedAux counters rest (i + 1)
      else reachedAux counters rest (i + 1)

/-- Modelled from the spec: the skills actually reached in a session — those
with at least one question asked, read off the per-skill counters. -/
def reachedOf (skills : List Skill) (s : Session) : List Skill :=
  reachedAux s.perSkillQuestions skills 0

/-- Modelled from the spec: skill scores built from a gateway response for the
reached skills, clamping out-of-range ratings. -/
def mkScores (reached : List Skill) (raw : List (ℤ × String)) : List SkillScore :=
  (reached.zip raw).map fun p =>
    let c := clampRating p.2.1
    { skillId := p.1.id, weight := p.1.weight, rating := c.1,
      rationale := p.2.2, lowConfidence := c.2 }

/-- Modelled from the spec: degraded scores after two gateway failures — every
reached skill rated at the rubric midpoint 3 with rationale
"scoring unavailable". -/
def degradedScores (reached : List Skill) : List SkillScore :=
  reached.map fun sk =>
    { skillId := sk.id, weight := sk.weight, rating := 3,
      rationale := "scoring unavailable", lowConfidence := false }

/-- Modelled from the spec: the Evaluation Engine. Scores each reached skill
through the gateway (with one retry, degrading to all-3 defaults on a second
failure), computes the weighted composite and resolves the tier. -/
def runEvaluation (gw : GatewayFn) (skills : List Skill) (s : Session) :
    EvaluationResult :=
  let reached := reachedOf skills s
  let scores :=
    match callWithRetry gw with
    | some raw => mkScores reached raw
    | none => degradedScores reached
  { scores := scores, composite := compositeOfScores scores,
    tier := resolveTier (compositeOfScores scores) }

/-- Modelled from the spec: the error taxonomy of the engine. -/
inductive InterviewError
  | sessionClosed
  | validationError (reprompt : String)
  | alreadyEvaluated
  | noEvaluation
deriving DecidableEq

/-- Modelled from the spec: the closed set of directives returned by the
gateway for the probe-versus-advance decision. -/
inductive Directive
  | probe
  | advance
deriving DecidableEq

/-- Modelled from the spec: the question the session is currently waiting on,
used to re-prompt after a rejected answer. -/
def currentPrompt (skills : List Skill) (s : Session) : String :=
  match s.phase with
  | .introduction => "introduction question"
  | .collect_info => "profile question " ++ toString s.profileFilled
  | .skills_assessment =>
      "skill question " ++ (((skills.get? s.skillIdx).map Skill.id).getD "")
  | .closing => "closing question " ++ toString s.closingIdx
  | .complete => ""

/-- Increment the per-skill question counter at the given index. -/
def bumpCounter (l : List ℕ) (i : ℕ) : List ℕ := l.set i (l.getD i 0 + 1)

/-- Modelled from the spec: `start_session` — a fresh session in
`introduction`. -/
def start_session (skills : List Skill) : Session :=
  { phase := .introduction, profileFilled := 0, skillIdx := 0, probeCount := 0,
    perSkillQuestions := List.replicate skills.length 0, closingIdx := 0,
    transcript := [], evaluation := none }

/-- Modelled from the spec: `submit_answer`. A blank answer is rejected with a
validation message re-prompting the same question, in any phase. Otherwise
`introduction` advances to `collect_info` on any answer; `collect_info` fills
the next profile field and advances to `skills_assessment` once all fields are
filled; `skills_assessment` records the answer against the active skill and
either probes again (gateway directive `probe`, probe counter below the cap)
or advances to the next skill, moving to `closing` after the last skill;
`closing` walks the fixed closing questions and, after the last one, invokes
the Evaluation Engine and becomes `complete`; a session already in `complete`
is rejected with `SessionClosedError`. -/
def submit_answer (gw : GatewayFn) (d : Directive) (skills : List Skill)
    (s : Session) (a : String) : Except InterviewError (Session × String) :=
  if isBlank a then .error (.validationError (currentPrompt skills s))
  else
    match s.phase with
    | .complete => .error .sessionClosed
    | .introduction =>
        .ok ({ s with
               phase := .collect_info
               transcript := s.transcript ++ [(none, a)] },
             "profile question 0")
    | .collect_info =>
        let s1 := { s with
                    profileFilled := s.profileFilled + 1
                    transcript := s.transcript ++ [(none, a)] }
        if numProfileFields ≤ s1.profileFilled then
          .ok ({ s1 with phase := .skills_assessment }, "skill question 0")
        else .ok (s1, "profile question " ++ toString s1.profileFilled)
    | .skills_assessment =>
        let tag := (skills.get? s.skillIdx).map Skill.id
        let s1 := { s with
                    transcript := s.transcript ++ [(tag, a)]
                    perSkillQuestions := bumpCounter s.perSkillQuestions s.skillIdx }
        if d = Directive.probe ∧ s.probeCount < probeCap then
          .ok ({ s1 with probeCount := s.probeCount + 1 }, "follow-up question")
        else if s.skillIdx + 1 < skills.length then
          .ok ({ s1 with skillIdx := s.skillIdx + 1, probeCount := 0 },
               "skill question " ++ toString (s.skillIdx + 1))
        else
          .ok ({ s1 with
                 phase := .closing
                 skillIdx := s.skillIdx + 1
                 probeCount := 0 }, "closing question 0")
    | .closing =>
        let s1 := { s with
                    transcript := s.transcript ++ [(none, a)]
                    closingIdx := s.closingIdx + 1 }
        if numClosing ≤ s1.closingIdx then
          let r := runEvaluation gw skills s1
          .ok ({ s1 with phase := .complete, evaluation := some r },
               "interview complete")
        else .ok (s1, "closing question " ++ toString s1.closingIdx)

/-- The session repository's view of one `submit_answer` call: on an error the
stored session is left untouched. -/
def stepSession (gw : GatewayFn) (d : Directive) (skills : List Skill)
    (s : Session) (a : String) : Session × Except InterviewError String :=
  match submit_answer gw d skills s a with
  | .ok (s1, m) => (s1, .ok m)
  | .error e => (s, .error e)

/-- A whole sequence of `submit_answer` calls against the repository. -/
def runSteps (gw : GatewayFn) (skills : List Skill) :
    List (Directive × String) → Session → Session
  | [], s => s
  | (d, a) :: rest, s => runSteps gw skills rest (stepSession gw d skills s a).1

/-- Modelled from the spec: `evaluate` as a session operation — rejected with
`AlreadyEvaluatedError` when the session already holds a result, otherwise the
result is computed once and persisted as immutable. -/
def evaluateOp (gw : GatewayFn) (skills : List Skill) (s : Session) :
    Except InterviewError (Session × EvaluationResult) :=
  match s.evaluation with
  | some _ => .error .alreadyEvaluated
  | none =>
      let r := runEvaluation gw skills s
      .ok ({ s with evaluation := some r }, r)

/-- Modelled from the spec: the Follow-up Guide (the fields the claims need). -/
structure FollowUpGuide where
  focusAreas : List SkillScore
  overview : String
deriving DecidableEq

/-- A skill score qualifies as a focus area when its rating is at most 2 or it
was flagged `low_confidence`. -/
def qualifies (sc : SkillScore) : Bool := sc.rating ≤ 2 || sc.lowConfidence

/-- Descending-weight order on skill scores. -/
def wge (a b : SkillScore) : Prop := b.weight ≤ a.weight

instance : DecidableRel wge := fun a b => Nat.decLe b.weight a.weight

instance : IsTotal SkillScore wge := ⟨fun a b => Nat.le_total b.weight a.weight⟩

instance : IsTrans SkillScore wge :=
  ⟨fun _ _ _ h1 h2 => Nat.le_trans h2 h1⟩

/-- Modelled from the spec: focus areas — the qualifying skills ordered by
weight descending. -/
def focusAreasOf (r : EvaluationResult) : List SkillScore :=
  (r.scores.filter qualifies).insertionSort wge

/-- Modelled from the spec: `generate_guide` — fails with `NoEvaluationError`
before the session reached `complete`, otherwise derives the guide from the
session's evaluation. -/
def generate_guide (s : Session) : Except InterviewError FollowUpGuide :=
  match s.phase, s.evaluation with
  | Phase.complete, some r => .ok { focusAreas := focusAreasOf r,
                                    overview := "follow-up guide" }
  | _, _ => .error .noEvaluation

/-! ## Concrete data for the worked examples -/

/-- The highest-weight example skill (weight 5). -/
def skillA : Skill := ⟨"digital_marketing_knowledge", 5⟩

/-- Example skill of weight 3. -/
def skillB : Skill := ⟨"communication", 3⟩

/-- Example skill of weight 2. -/
def skillC : Skill := ⟨"adaptability", 2⟩

/-- The three configured example skills, weights `[5, 3, 2]`. -/
def exSkills : List Skill := [skillA, skillB, skillC]

/-- A gateway answering every attempt with ratings `[5, 4, 3]`. -/
def gwRated : GatewayFn := fun _ => some [(5, "strong"), (4, "good"), (3, "fair")]

/-- A gateway answering with ratings `[5, 4]` for two reached skills. -/
def gwRatedTwo : GatewayFn := fun _ => some [(5, "strong"), (4, "good")]

/-- A gateway that fails on every attempt. -/
def gwDown : GatewayFn := fun _ => none

/-- A session in `closing`, one answer away from `complete`, with every skill
reached. -/
def sessClosing : Session :=
  { phase := .closing, profileFilled := 3, skillIdx := 3, probeCount := 0,
    perSkillQuestions := [3, 2, 1], closingIdx := 1, transcript := [],
    evaluation := none }

/-- Like `sessClosing`, but the third skill was never reached. -/
def sessPartial : Session :=
  { sessClosing with perSkillQuestions := [1, 1, 0] }

/-- A completed session that has not stored an evaluation yet. -/
def sessDone : Session :=
  { sessClosing with phase := .complete, closingIdx := 2 }

/-- An evaluation with a weak high-weight skill, a low-confidence skill and a
healthy skill, for exercising the guide generator. -/
def resExample : EvaluationResult :=
  { scores := [⟨"communication", 3, 2, "hesitant", false⟩,
               ⟨"adaptability", 2, 4, "solid", false⟩,
               ⟨"digital_marketing_knowledge", 5, 3, "unclear", true⟩],
    composite := 28 / 10, tier := .maybe }

/-- A completed session holding `resExample`. -/
def sessEvaluated : Session :=
  { sessDone with evaluation := some resExample }

/-! ## Helper lemmas -/

theorem round1_eq (q : ℚ) : round1 q = ((⌊q * 10 + 1 / 2⌋ : ℤ) : ℚ) / 10 := rfl

theorem round1_concrete {q : ℚ} {z : ℤ} (h1 : (z : ℚ) ≤ q * 10 + 1 / 2)
    (h2 : q * 10 + 1 / 2 < z + 1) : round1 q = (z : ℚ) / 10 := by
  rw [round1_eq, Int.floor_eq_iff.mpr ⟨h1, h2⟩]

theorem runEvaluation_composite (gw : GatewayFn) (skills : List Skill)
    (s : Session) :
    (runEvaluation gw skills s).composite =
      compositeOfScores (runEvaluation gw skills s).scores := rfl

theorem runEvaluation_tier (gw : GatewayFn) (skills : List Skill) (s : Session) :
    (runEvaluation gw skills s).tier =
      resolveTier (runEvaluation gw skills s).composite := by
  rw [runEvaluation_composite]; rfl

theorem runEvaluation_scores_ok (gw : GatewayFn) (raw : List (ℤ × String))
    (h : callWithRetry gw = some raw) (skills : List Skill) (s : Session) :
    (runEvaluation gw skills s).scores = mkScores (reachedOf skills s) raw := by
  simp [runEvaluation, h]

theorem runEvaluation_scores_fail (gw : GatewayFn)
    (h : callWithRetry gw = none) (skills : List Skill) (s : Session) :
    (runEvaluation gw skills s).scores = degradedScores (reachedOf skills s) := by
  simp [runEvaluation, h]

theorem compositeOfScores_pos {scores : List SkillScore}
    (h : 0 < (scores.map SkillScore.weight).sum) :
    compositeOfScores scores =
      round1 (((scores.map fun sc => ((sc.rating : ℚ) * sc.weight)).sum) /
        (((scores.map SkillScore.weight).sum : ℕ) : ℚ)) := by
  rw [compositeOfScores]
  exact if_neg (Nat.pos_iff_ne_zero.mp h)

/-! ## Claim theorems for the engine -/

/-- C1: for every evaluated session whose scored skills carry positive total
weight, the weighted composite score equals the sum over all scored skills of
rating × weight, divided by the sum of the weights, rounded to one decimal
place; in particular ratings [5,4,3] with weights [5,3,2] yield exactly 4.3. -/
theorem c1_weighted_composite :
    (∀ (gw : GatewayFn) (skills : List Skill) (s : Session),
      0 < ((runEvaluation gw skills s).scores.map SkillScore.weight).sum →
      (runEvaluation gw skills s).composite =
        round1 ((((runEvaluation gw skills s).scores.map
            fun sc => ((sc.rating : ℚ) * sc.weight)).sum) /
          ((((runEvaluation gw skills s).scores.map SkillScore.weight).sum : ℕ) : ℚ))) ∧
    compositeOfScores
      [⟨"digital_marketing_knowledge", 5, 5, "strong", false⟩,
       ⟨"communication", 3, 4, "good", false⟩,
       ⟨"adaptability", 2, 3, "fair", false⟩] = 43 / 10 := by
  constructor
  · intro gw skills s h
    rw [runEvaluation_composite, compositeOfScores_pos h]
  · norm_num [compositeOfScores]
    rw [round1_concrete (z := 43) (by norm_num) (by norm_num)]
    norm_num

/-- Witness for C1 at a concrete gateway, skill list and session. -/
theorem c1_weighted_composite_witness :
    0 < ((runEvaluation gwRated exSkills sessClosing).scores.map
        SkillScore.weight).sum ∧
    (runEvaluation gwRated exSkills sessClosing).composite =
      round1 ((((runEvaluation gwRated exSkills sessClosing).scores.map
          fun sc => ((sc.rating : ℚ) * sc.weight)).sum) /
        ((((runEvaluation gwRated exSkills sessClosing).scores.map
            SkillScore.weight).sum : ℕ) : ℚ)) :=
  ⟨by decide, c1_weighted_composite.1 gwRated exSkills sessClosing (by decide)⟩

/-- C2 counterexample: with ratings [5,4], weights [5,3] and an unreached
third skill of weight 2, the composite stored by the engine is not 4.625 —
the engine rounds the weighted mean to one decimal place. -/
theorem c2_counterexample :
    (runEvaluation gwRatedTwo exSkills sessPartial).composite ≠ 37 / 8 := by
  rw [runEvaluation_composite,
    runEvaluation_scores_ok gwRatedTwo [(5, "strong"), (4, "good")] rfl]
  norm_num [reachedOf, reachedAux, mkScores, clampRating, compositeOfScores,
    exSkills, skillA, skillB, skillC, sessPartial, sessClosing,
    show (5 : ℤ).toNat = 5 from rfl, show (4 : ℤ).toNat = 4 from rfl]
  rw [round1_concrete (z := 46) (by norm_num) (by norm_num)]
  norm_num

/-- C2 amended: the composite excludes each unreached skill from both the
numerator and the denominator (every produced score belongs to a reached
skill); ratings [5,4] with weights [5,3] out of three configured skills give
numerator 37 and denominator 8, so the composite is the one-decimal rounding
of 37/8 = 4.625, namely 4.6. -/
theorem c2_unreached_excluded :
    (∀ (gw : GatewayFn) (skills : List Skill) (s : Session),
      ∀ sc ∈ (runEvaluation gw skills s).scores,
        ∃ sk ∈ reachedOf skills s, sc.skillId = sk.id ∧ sc.weight = sk.weight) ∧
    (runEvaluation gwRatedTwo exSkills sessPartial).scores.map
        SkillScore.weight = [5, 3] ∧
    ((runEvaluation gwRatedTwo exSkills sessPartial).scores.map
        fun sc => ((sc.rating : ℚ) * sc.weight)).sum = 37 ∧
    (runEvaluation gwRatedTwo exSkills sessPartial).composite =
      round1 (37 / 8) ∧
    round1 (37 / 8) = 46 / 10 := by
  refine ⟨?_, ?_, ?_, ?_, ?_⟩
  · intro gw skills s sc hsc
    cases h : callWithRetry gw with
    | some raw =>
        rw [runEvaluation_scores_ok gw raw h] at hsc
        obtain ⟨p, hp, rfl⟩ := List.mem_map.mp hsc
        exact ⟨p.1, (List.of_mem_zip hp).1, rfl, rfl⟩
    | none =>
        rw [runEvaluation_scores_fail gw h] at hsc
        obtain ⟨sk, hsk, rfl⟩ := List.mem_map.mp hsc
        exact ⟨sk, hsk, rfl, rfl⟩
  · decide
  · rw [runEvaluation_scores_ok gwRatedTwo [(5, "strong"), (4, "good")] rfl]
    norm_num [reachedOf, reachedAux, mkScores, clampRating,
      exSkills, skillA, skillB, skillC, sessPartial, sessClosing,
      show (5 : ℤ).toNat = 5 from rfl, show (4 : ℤ).toNat = 4 from rfl]
  · rw [runEvaluation_composite,
      runEvaluation_scores_ok gwRatedTwo [(5, "strong"), (4, "good")] rfl]
    norm_num [reachedOf, reachedAux, mkScores, clampRating, compositeOfScores,
      exSkills, skillA, skillB, skillC, sessPartial, sessClosing,
      show (5 : ℤ).toNat = 5 from rfl, show (4 : ℤ).toNat = 4 from rfl]
  · rw [round1_concrete (z := 46) (by norm_num) (by norm_num)]
    norm_num

/-- Witness for the general exclusion part of C2 at a concrete score of a
concrete evaluation. -/
theorem c2_unreached_excluded_witness :
    (⟨"digital_marketing_knowledge", 5, 5, "strong", false⟩ : SkillScore) ∈
      (runEvaluation gwRatedTwo exSkills sessPartial).scores ∧
    ∃ sk ∈ reachedOf exSkills sessPartial,
      (⟨"digital_marketing_knowledge", 5, 5, "strong", false⟩ :
        SkillScore).skillId = sk.id ∧
      (⟨"digital_marketing_knowledge", 5, 5, "strong", false⟩ :
        SkillScore).weight = sk.weight :=
  ⟨by decide,
   c2_unreached_excluded.1 gwRatedTwo exSkills sessPartial _ (by decide)⟩

/-- C3: the resolved tier is the highest tier whose inclusive minimum
threshold is at most the composite, thresholds checked in descending order
(strong_yes at 4.0, yes at 3.2, maybe at 2.5, else no); a composite of exactly
3.2 resolves to yes and a composite of 0 resolves to no. -/
theorem c3_tier_resolution :
    (∀ c : ℚ, resolveTier c =
      if 4 ≤ c then Tier.strong_yes
      else if 16 / 5 ≤ c then Tier.yes
      else if 5 / 2 ≤ c then Tier.maybe
      else Tier.no) ∧
    resolveTier (16 / 5) = Tier.yes ∧ resolveTier 0 = Tier.no := by
  refine ⟨?_, ?_, ?_⟩
  · intro c
    by_cases h1 : (4 : ℚ) ≤ c
    · simp [resolveTier, recommendationTiers, List.find?, h1]
    · by_cases h2 : (16 / 5 : ℚ) ≤ c
      · simp [resolveTier, recommendationTiers, List.find?, h1, h2]
      · by_cases h3 : (5 / 2 : ℚ) ≤ c
        · simp [resolveTier, recommendationTiers, List.find?, h1, h2, h3]
        · simp [resolveTier, recommendationTiers, List.find?, h1, h2, h3]
  · norm_num [resolveTier, recommendationTiers, List.find?]
  · norm_num [resolveTier, recommendationTiers, List.find?]

/-! ### State-machine lemmas -/

theorem stepSession_phase_mono (gw : GatewayFn) (d : Directive)
    (skills : List Skill) (s : Session) (a : String) :
    phaseIdx s.phase ≤ phaseIdx (stepSession gw d skills s a).1.phase := by
  obtain ⟨ph, pf, si, pc, counters, ci, tr, ev⟩ := s
  by_cases hb : isBlank a
  · simp [stepSession, submit_answer, hb]
  · cases ph <;>
      simp only [stepSession, submit_answer, hb] <;>
      split_ifs <;>
      simp [phaseIdx]

theorem stepSession_complete_fixed (gw : GatewayFn) (d : Directive)
    (skills : List Skill) (s : Session) (a : String)
    (h : s.phase = Phase.complete) : (stepSession gw d skills s a).1 = s := by
  by_cases hb : isBlank a <;> simp [stepSession, submit_answer, h, hb]

theorem runSteps_phase_mono (gw : GatewayFn) (skills : List Skill)
    (ops : List (Directive × String)) :
    ∀ s : Session, phaseIdx s.phase ≤ phaseIdx (runSteps gw skills ops s).phase := by
  induction ops with
  | nil => intro s; exact le_refl _
  | cons p rest ih =>
      intro s
      obtain ⟨d, a⟩ := p
      exact le_trans (stepSession_phase_mono gw d skills s a)
        (ih (stepSession gw d skills s a).1)

theorem degradedScores_spec (l : List Skill) :
    ∀ sc ∈ degradedScores l,
      sc.rating = 3 ∧ sc.rationale = "scoring unavailable" := by
  intro sc hsc
  obtain ⟨sk, _, rfl⟩ := List.mem_map.mp hsc
  exact ⟨rfl, rfl⟩

/-! ### Claim theorems for the state machine -/

/-- C4: phases only move forward through introduction, collect_info,
skills_assessment, closing, complete — a single operation never decreases the
phase position, neither does any sequence of operations (so once a phase is
left it is never revisited), and complete is terminal: every operation on a
completed session leaves it untouched. -/
theorem c4_phase_monotone :
    (∀ (gw : GatewayFn) (d : Directive) (skills : List Skill) (s : Session)
      (a : String),
      phaseIdx s.phase ≤ phaseIdx (stepSession gw d skills s a).1.phase) ∧
    (∀ (gw : GatewayFn) (skills : List Skill) (ops : List (Directive × String))
      (s : Session),
      phaseIdx s.phase ≤ phaseIdx (runSteps gw skills ops s).phase) ∧
    (∀ (gw : GatewayFn) (d : Directive) (skills : List Skill) (s : Session)
      (a : String),
      s.phase = Phase.complete → (stepSession gw d skills s a).1 = s) :=
  ⟨stepSession_phase_mono,
   fun gw skills ops s => runSteps_phase_mono gw skills ops s,
   stepSession_complete_fixed⟩

/-- Witness for C4's terminality at a concrete completed session. -/
theorem c4_phase_monotone_witness :
    sessDone.phase = Phase.complete ∧
    (stepSession gwDown Directive.advance exSkills sessDone "hello").1 =
      sessDone :=
  ⟨rfl, c4_phase_monotone.2.2 gwDown Directive.advance exSkills sessDone
    "hello" rfl⟩

/-- C5: a blank (empty or whitespace-only) answer, in any phase, leaves the
stored session — in particular its phase, transcript length and per-skill
counters — unchanged, and returns a validation message re-prompting the
current question. -/
theorem c5_blank_answer (gw : GatewayFn) (d : Directive) (skills : List Skill)
    (s : Session) (a : String) (h : isBlank a = true) :
    (stepSession gw d skills s a).1 = s ∧
    (stepSession gw d skills s a).1.phase = s.phase ∧
    (stepSession gw d skills s a).1.transcript.length = s.transcript.length ∧
    (stepSession gw d skills s a).1.perSkillQuestions = s.perSkillQuestions ∧
    (stepSession gw d skills s a).2 =
      Except.error (InterviewError.validationError (currentPrompt skills s)) := by
  have h1 : stepSession gw d skills s a =
      (s, Except.error (InterviewError.validationError (currentPrompt skills s))) := by
    simp [stepSession, submit_answer, h]
  rw [h1]
  exact ⟨rfl, rfl, rfl, rfl, rfl⟩

/-- Witness for C5 with a whitespace-only answer in `skills_assessment`-free
closing phase. -/
theorem c5_blank_answer_witness :
    isBlank "  " = true ∧
    ((stepSession gwRated Directive.probe exSkills sessClosing "  ").1 =
        sessClosing ∧
      (stepSession gwRated Directive.probe exSkills sessClosing "  ").1.phase =
        sessClosing.phase ∧
      (stepSession gwRated Directive.probe exSkills sessClosing
          "  ").1.transcript.length = sessClosing.transcript.length ∧
      (stepSession gwRated Directive.probe exSkills sessClosing
          "  ").1.perSkillQuestions = sessClosing.perSkillQuestions ∧
      (stepSession gwRated Directive.probe exSkills sessClosing "  ").2 =
        Except.error (InterviewError.validationError
          (currentPrompt exSkills sessClosing))) :=
  ⟨by decide,
   c5_blank_answer gwRated Directive.probe exSkills sessClosing "  " (by decide)⟩

/-- C6: when the gateway fails on the initial call and on the single retry,
the last closing answer still completes the session, and the stored degraded
result rates every skill 3 with rationale "scoring unavailable", with the
composite and tier computed normally from those defaults. -/
theorem c6_gateway_degraded (gw : GatewayFn) (d : Directive)
    (skills : List Skill) (s : Session) (a : String)
    (h0 : gw 0 = none) (h1 : gw 1 = none) (hph : s.phase = Phase.closing)
    (hc : numClosing ≤ s.closingIdx + 1) (ha : isBlank a = false) :
    (stepSession gw d skills s a).1.phase = Phase.complete ∧
    ∃ r, (stepSession gw d skills s a).1.evaluation = some r ∧
      (∀ sc ∈ r.scores, sc.rating = 3 ∧ sc.rationale = "scoring unavailable") ∧
      r.composite = compositeOfScores r.scores ∧
      r.tier = resolveTier r.composite := by
  have hcw : callWithRetry gw = none := by
    rw [callWithRetry, h0, h1]
  have hstep : stepSession gw d skills s a =
      ({ { s with
           transcript := s.transcript ++ [(none, a)]
           closingIdx := s.closingIdx + 1 } with
         phase := Phase.complete
         evaluation := some (runEvaluation gw skills
           { s with
             transcript := s.transcript ++ [(none, a)]
             closingIdx := s.closingIdx + 1 }) }, Except.ok "interview complete") := by
    simp [stepSession, submit_answer, hph, ha, hc]
  rw [hstep]
  refine ⟨rfl, runEvaluation gw skills _, rfl, ?_, runEvaluation_composite gw skills _,
    runEvaluation_tier gw skills _⟩
  rw [runEvaluation_scores_fail gw hcw]
  exact degradedScores_spec _

/-- Witness for C6: the down gateway, the example skills and the session one
answer from completion. -/
theorem c6_gateway_degraded_witness :
    gwDown 0 = none ∧ gwDown 1 = none ∧ sessClosing.phase = Phase.closing ∧
    numClosing ≤ sessClosing.closingIdx + 1 ∧ isBlank "ok" = false ∧
    ((stepSession gwDown Directive.advance exSkills sessClosing "ok").1.phase =
        Phase.complete ∧
      ∃ r, (stepSession gwDown Directive.advance exSkills sessClosing
          "ok").1.evaluation = some r ∧
        (∀ sc ∈ r.scores, sc.rating = 3 ∧ sc.rationale = "scoring unavailable") ∧
        r.composite = compositeOfScores r.scores ∧
        r.tier = resolveTier r.composite) :=
  ⟨rfl, rfl, rfl, by decide, by decide,
   c6_gateway_degraded gwDown Directive.advance exSkills sessClosing "ok"
     rfl rfl rfl (by decide) (by decide)⟩

/-- C7: a second `evaluate` on the same session fails with
`AlreadyEvaluatedError`, and the result stored by the first call is unchanged
by the second call. -/
theorem c7_already_evaluated (gw gw2 : GatewayFn) (skills skills2 : List Skill)
    (s s1 : Session) (r : EvaluationResult)
    (h : evaluateOp gw skills s = Except.ok (s1, r)) :
    evaluateOp gw2 skills2 s1 = Except.error InterviewError.alreadyEvaluated ∧
    s1.evaluation = some r := by
  cases hev : s.evaluation with
  | some r0 => simp [evaluateOp, hev] at h
  | none =>
      simp only [evaluateOp, hev] at h
      rw [Except.ok.injEq, Prod.mk.injEq] at h
      obtain ⟨hs1, hr⟩ := h
      constructor
      · rw [← hs1]
        simp [evaluateOp]
      · rw [← hs1, ← hr]

/-- Witness for C7: evaluating the closing-stage example session twice. -/
theorem c7_already_evaluated_witness :
    evaluateOp gwRated exSkills sessClosing =
      Except.ok ({ sessClosing with
        evaluation := some (runEvaluation gwRated exSkills sessClosing) },
        runEvaluation gwRated exSkills sessClosing) ∧
    evaluateOp gwDown exSkills
      ({ sessClosing with
        evaluation := some (runEvaluation gwRated exSkills sessClosing) }) =
      Except.error InterviewError.alreadyEvaluated ∧
    ({ sessClosing with
        evaluation := some (runEvaluation gwRated exSkills sessClosing) } :
      Session).evaluation = some (runEvaluation gwRated exSkills sessClosing) :=
  ⟨rfl,
   (c7_already_evaluated gwRated gwDown exSkills exSkills sessClosing _ _
     rfl).1,
   (c7_already_evaluated gwRated gwDown exSkills exSkills sessClosing _ _
     rfl).2⟩

/-- C8: `generate_guide` fails with `NoEvaluationError` exactly when the
session has not reached `complete` (a completed session always carries its
evaluation); on success the focus areas contain exactly the scored skills
whose rating is at most 2 or whose score was flagged low-confidence, ordered
by descending weight. -/
theorem c8_generate_guide (s : Session)
    (hwf : s.phase = Phase.complete → s.evaluation.isSome = true) :
    ((generate_guide s = Except.error InterviewError.noEvaluation) ↔
      s.phase ≠ Phase.complete) ∧
    (∀ r g, s.evaluation = some r → generate_guide s = Except.ok g →
      (∀ sc, sc ∈ g.focusAreas ↔ sc ∈ r.scores ∧ qualifies sc = true) ∧
      g.focusAreas.Sorted wge) := by
  constructor
  · constructor
    · intro he hph
      obtain ⟨r, hr⟩ := Option.isSome_iff_exists.mp (hwf hph)
      simp [generate_guide, hph, hr] at he
    · intro hne
      cases hph : s.phase <;>
        first
          | exact absurd hph hne
          | cases hev : s.evaluation <;> simp [generate_guide, hph, hev]
  · intro r g hr hg
    have hph : s.phase = Phase.complete := by
      by_contra hne
      cases hph2 : s.phase <;>
        first
          | exact hne hph2
          | simp [generate_guide, hph2, hr] at hg
    have hg2 : g = { focusAreas := focusAreasOf r, overview := "follow-up guide" } := by
      have hok : generate_guide s = Except.ok
          ({ focusAreas := focusAreasOf r, overview := "follow-up guide" }) := by
        simp [generate_guide, hph, hr]
      rw [hok] at hg
      exact (Except.ok.inj hg).symm
    subst hg2
    constructor
    · intro sc
      show sc ∈ (r.scores.filter qualifies).insertionSort wge ↔ _
      rw [List.mem_insertionSort, List.mem_filter]
    · exact List.sorted_insertionSort wge _

/-- Witness for C8 at a concrete completed, evaluated session. -/
theorem c8_generate_guide_witness :
    (sessEvaluated.phase = Phase.complete →
      sessEvaluated.evaluation.isSome = true) ∧
    (((generate_guide sessEvaluated =
        Except.error InterviewError.noEvaluation) ↔
      sessEvaluated.phase ≠ Phase.complete) ∧
    (∀ r g, sessEvaluated.evaluation = some r →
      generate_guide sessEvaluated = Except.ok g →
      (∀ sc, sc ∈ g.focusAreas ↔ sc ∈ r.scores ∧ qualifies sc = true) ∧
      g.focusAreas.Sorted wge)) :=
  ⟨by decide, c8_generate_guide sessEvaluated (by decide)⟩

end Nytro

